import Mathlib

/-!
Verification of the evidence synthesis and validation pipeline
(`src/PersonC/Synthesis.py`, class `SynthesisEngine`), shallowly embedded
in Lean 4.

Modelling conventions:
* JSON values are the inductive type `Json`.  JSON numbers are modelled as
  integers (no claim depends on non-integral numeric values); `json.loads`
  itself is Python standard library, so a raw model text is represented by
  its parse outcome `Except String Json` (the error carries the decoder
  message interpolated by `str(e)`).
* Python runtime exceptions raised inside the `try` block of
  `_validate_and_repair` (AttributeError from `.get` on a non-dict,
  TypeError from iterating a non-iterable or hashing an unhashable value,
  pydantic ValidationError from a wrongly typed field) are modelled with
  the `Except PyErr` monad; the two `except` clauses of the source are the
  two `match` arms of `_validate_and_repair`.
* Python semantics that the source relies on are modelled explicitly:
  `for x in v` over a dict yields its keys and over a string yields its
  one-character substrings (`pyIter`); `x in valid_ids` on a set raises
  TypeError for unhashable values and is otherwise a membership test that
  only strings can pass (`checkIdKeep`); `a or b` and `if not x` use
  truthiness, under which `None` and the empty string are falsy
  (`pyTruthy`, `pyOr`).
* The pydantic models of `shared/schemas.py` become structures; field
  validation (str / List[str]) is `asStr` / `asStrList`.
-/

namespace EDW

/-- JSON values as produced by `json.loads`: the object case keeps field
order as a key-unique association list, numbers are modelled as integers. -/
inductive Json where
  | null : Json
  | bool (b : Bool) : Json
  | num (n : Int) : Json
  | str (s : String) : Json
  | arr (elems : List Json) : Json
  | obj (fields : List (String × Json)) : Json

/-- Python type name of a JSON value, as it appears in exception messages. -/
def Json.typeName : Json → String
  | .null => "NoneType"
  | .bool _ => "bool"
  | .num _ => "int"
  | .str _ => "str"
  | .arr _ => "list"
  | .obj _ => "dict"

/-- True exactly for JSON objects (Python dicts). -/
def Json.isObj : Json → Bool
  | .obj _ => true
  | _ => false

/-- Evidence record (`shared/schemas.py`, class Evidence).  KPI values are
floats in the source; they are modelled as rationals, and their rendering
into prompt text is abstracted by `toString`. -/
structure Evidence where
  id : String
  dimension : String
  period : Option String := none
  kpis : List (String × Rat) := []
  highlights : List String := []
  deriving DecidableEq

/-- Output driver (`shared/schemas.py`, class Driver). -/
structure Driver where
  factor : String
  evidence_ids : List String := []
  deriving DecidableEq

/-- Synthesis output (`shared/schemas.py`, class SynthesisOut). -/
structure SynthesisOut where
  answer : String
  drivers : List Driver := []
  confidence : String
  limitations : List String := []
  next_steps : List String := []
  deriving DecidableEq

/-- Python runtime exceptions that can escape the processing steps of
`_validate_and_repair` and reach its `except Exception` clause. -/
inductive PyErr where
  | attributeError (msg : String) : PyErr
  | typeError (msg : String) : PyErr
  | validationError (msg : String) : PyErr
  deriving DecidableEq

/-- The `str(e)` rendering of a Python exception: its message. -/
def PyErr.msg : PyErr → String
  | .attributeError m => m
  | .typeError m => m
  | .validationError m => m

/-- Field lookup in a JSON object (`dict.__getitem__` resolution for the
key-unique dicts produced by `json.loads`). -/
def lookupField : List (String × Json) → String → Option Json
  | [], _ => none
  | (k, v) :: rest, key => if k = key then some v else lookupField rest key

/-- Python `j.get(key, default)`: defaulting lookup on dicts, AttributeError
on every other value. -/
def pyGet (j : Json) (key : String) (dflt : Json) : Except PyErr Json :=
  match j with
  | .obj fields => .ok ((lookupField fields key).getD dflt)
  | _ => .error (.attributeError (j.typeName ++ " object has no attribute get"))

/-- Python `for x in v` over a JSON value: arrays yield their elements,
dicts their keys, strings their one-character substrings; every other
value raises TypeError. -/
def pyIter (j : Json) : Except PyErr (List Json) :=
  match j with
  | .arr elems => .ok elems
  | .obj fields => .ok (fields.map fun p => Json.str p.1)
  | .str s => .ok (s.data.map fun c => Json.str (String.mk [c]))
  | _ => .error (.typeError (j.typeName ++ " object is not iterable"))

/-- One step of the comprehension
`[eid for eid in ... if eid in valid_ids]`: lists and dicts are unhashable
(TypeError), a string is kept when it is a valid id, and any other
hashable value fails the membership test. -/
def checkIdKeep (validIds : List String) (eid : Json) : Except PyErr (Option String) :=
  match eid with
  | .arr _ => .error (.typeError "unhashable type: list")
  | .obj _ => .error (.typeError "unhashable type: dict")
  | .str s => .ok (if validIds.contains s then some s else none)
  | _ => .ok none

/-- The whole comprehension: filter the iterated `evidence_ids` items to
the valid ids, left to right, keeping relative order. -/
def filterEvidenceIds (validIds : List String) : List Json → Except PyErr (List String)
  | [] => .ok []
  | eid :: rest => do
      let kept ← checkIdKeep validIds eid
      let tail ← filterEvidenceIds validIds rest
      pure (match kept with
        | some s => s :: tail
        | none => tail)

/-- Pydantic validation of a `str` field: accept exactly strings. -/
def asStr (j : Json) : Except PyErr String :=
  match j with
  | .str s => .ok s
  | _ => .error (.validationError ("Input should be a valid string, got " ++ j.typeName))

/-- Pydantic validation of the elements of a `List[str]` field. -/
def allStrs : List Json → Except PyErr (List String)
  | [] => .ok []
  | j :: rest => do
      let s ← asStr j
      let tail ← allStrs rest
      pure (s :: tail)

/-- Pydantic validation of a `List[str]` field: accept exactly arrays of
strings. -/
def asStrList (j : Json) : Except PyErr (List String) :=
  match j with
  | .arr elems => allStrs elems
  | _ => .error (.validationError ("Input should be a valid list, got " ++ j.typeName))

/-- One iteration of the drivers loop: build one `Driver` from a parsed
element (`d.get` raises AttributeError when the element is not a dict). -/
def processDriver (validIds : List String) (d : Json) : Except PyErr Driver := do
  let rawIds ← pyGet d "evidence_ids" (Json.arr [])
  let idItems ← pyIter rawIds
  let valid_evidence_ids ← filterEvidenceIds validIds idItems
  let factorJ ← pyGet d "factor" (Json.str "Unknown factor")
  let factor ← asStr factorJ
  pure { factor := factor, evidence_ids := valid_evidence_ids }

/-- The drivers loop over the iterated `parsed.get("drivers", [])` value. -/
def processDrivers (validIds : List String) : List Json → Except PyErr (List Driver)
  | [] => .ok []
  | d :: rest => do
      let drv ← processDriver validIds d
      let tail ← processDrivers validIds rest
      pure (drv :: tail)

/-- The coercion applied to `parsed.get("confidence", "Medium")`: keep the
value only when it is one of the three case-sensitive labels. -/
def coerceConfidence (j : Json) : String :=
  match j with
  | .str s => if s ∈ ["High", "Medium", "Low"] then s else "Medium"
  | _ => "Medium"

/-- The body of the `try` block of `_validate_and_repair` after a
successful parse: everything from `parsed.get("drivers", [])` to the
`SynthesisOut(...)` construction, in source evaluation order, with every
raisable step in the `Except PyErr` monad. -/
def validateCore (parsed : Json) (validIds : List String) : Except PyErr SynthesisOut := do
  let driversJ ← pyGet parsed "drivers" (Json.arr [])
  let driverItems ← pyIter driversJ
  let drivers ← processDrivers validIds driverItems
  let confidenceJ ← pyGet parsed "confidence" (Json.str "Medium")
  let confidence := coerceConfidence confidenceJ
  let answerJ ← pyGet parsed "answer" (Json.str "Unable to generate answer from available evidence.")
  let answer ← asStr answerJ
  let limitationsJ ← pyGet parsed "limitations" (Json.arr [Json.str "Limited evidence available"])
  let limitations ← asStrList limitationsJ
  let nextStepsJ ← pyGet parsed "next_steps" (Json.arr [Json.str "Collect more detailed data"])
  let next_steps ← asStrList nextStepsJ
  pure { answer := answer, drivers := drivers, confidence := confidence,
         limitations := limitations, next_steps := next_steps }

/-- `SynthesisEngine._validate_and_repair`.  The first argument is the
outcome of `json.loads(llm_output)`; the `.error` arm is the
`except json.JSONDecodeError` clause and the inner `.error` arm the
`except Exception` clause of the source. -/
def _validate_and_repair (llm_output : Except String Json) (evidence : List Evidence) :
    SynthesisOut :=
  match llm_output with
  | .error e =>
      { answer := "Error: Unable to parse LLM response."
        drivers := []
        confidence := "Low"
        limitations := ["JSON parsing error: " ++ e]
        next_steps := ["Retry the query"] }
  | .ok parsed =>
      match validateCore parsed (evidence.map Evidence.id) with
      | .ok out => out
      | .error e =>
          { answer := "Error: Unable to generate synthesis."
            drivers := []
            confidence := "Low"
            limitations := ["Validation error: " ++ e.msg]
            next_steps := ["Check evidence format and retry"] }

/-- A well-formed synthesis output: its confidence is one of the three
labels of the closed enumeration.  (All other schema constraints are
enforced by the `SynthesisOut` structure type itself.) -/
def SynthesisOut.wellFormed (out : SynthesisOut) : Prop :=
  out.confidence ∈ ["High", "Medium", "Low"]

/-- Python truthiness of an optional string: `None` and `""` are falsy. -/
def pyTruthy : Option String → Bool
  | none => false
  | some s => s ≠ ""

/-- Python `a or b` on optional strings. -/
def pyOr (a b : Option String) : Option String :=
  if pyTruthy a then a else b

/-- The state of a constructed `SynthesisEngine` (`__init__` fields; the
Groq client handle itself is an external resource and carries no state
beyond the key). -/
structure SynthesisEngine where
  api_key : String
  model : String
  max_tokens : Nat
  temperature : Rat
  deriving DecidableEq

/-- `SynthesisEngine.__init__`: resolve the key as
`api_key or os.getenv("GROQ_API_KEY")`, raise ValueError when the result
is falsy, otherwise populate the fixed configuration. -/
def SynthesisEngine.initEngine (api_key : Option String)
    (env_GROQ_API_KEY : Option String) : Except String SynthesisEngine :=
  let key := pyOr api_key env_GROQ_API_KEY
  if pyTruthy key then
    .ok { api_key := key.getD ""
          model := "llama-3.3-70b-versatile"
          max_tokens := 1024
          temperature := (3 : Rat) / 10 }
  else
    .error "GROQ_API_KEY not found in environment"

/-- The evidence block rendered for one evidence item by `_build_prompt`
(the bullet glyph is the exact byte sequence present in the source file). -/
def evidenceBlock (ev : Evidence) : String :=
  let dimension_info :=
    "\n[Evidence ID: " ++ ev.id ++ "] Dimension: " ++ ev.dimension.toUpper
  let dimension_info :=
    if pyTruthy ev.period then dimension_info ++ " | Period: " ++ ev.period.getD ""
    else dimension_info
  let kpi_text := ev.kpis.map fun kv => "  - " ++ kv.1 ++ ": " ++ toString kv.2
  let highlights_text :=
    String.intercalate "\n" (ev.highlights.map fun h => "  â€¢ " ++ h)
  let evidence_block := dimension_info ++ "\n"
  let evidence_block :=
    if kpi_text ≠ [] then
      evidence_block ++ "Metrics:\n" ++ String.intercalate "\n" kpi_text ++ "\n"
    else evidence_block
  let evidence_block :=
    if highlights_text ≠ "" then
      evidence_block ++ "Key Findings:\n" ++ highlights_text
    else evidence_block
  evidence_block

/-- The fixed template text of `_build_prompt` before the interpolated
question. -/
def promptPrefix : String :=
  "You are a data analyst assistant for Honeywell\x27s Enterprise Data Warehouse. Analyze the provided evidence and explain WHY the situation occurred.\n\n**USER QUESTION:**\n"

/-- The fixed template text between the question and the evidence blocks. -/
def promptMid : String :=
  "\n\n**AVAILABLE EVIDENCE:**\n"

/-- The fixed template text after the evidence blocks: instructions, the
JSON output format example, and the guardrail directives. -/
def promptSuffix : String :=
  "\n\n**INSTRUCTIONS:**\n1. Analyze all provided evidence to identify root causes\n2. Explain WHY the situation occurred, not just what happened\n3. Identify specific drivers and explain causal relationships\n4. Cite evidence IDs that support each driver\n5. Look for correlations across dimensions (time, region, product, orders)\n6. Assess confidence: High (multiple consistent sources), Medium (limited evidence), Low (insufficient evidence)\n7. State limitations or assumptions in the analysis\n8. Suggest next steps for validation or deeper investigation\n\n**OUTPUT FORMAT (JSON):**\n\x7b\n  \"answer\": \"3-4 sentence explanation of WHY this happened, identifying root causes and their impact\",\n  \"drivers\": [\n    \x7b\n      \"factor\": \"Specific root cause with causal explanation\",\n      \"evidence_ids\": [\"e1\", \"e2\"]\n    \x7d\n  ],\n  \"confidence\": \"High/Medium/Low\",\n  \"limitations\": [\"Data gaps or assumptions in root cause analysis\"],\n  \"next_steps\": [\"Suggested analyses to validate root causes\"]\n\x7d\n\n**GUARDRAILS:**\n- Only use information from provided evidence\n- Do not fabricate numbers or facts\n- Focus on explaining WHY, not just describing WHAT\n- Identify causal relationships between dimensions\n- Cite evidence IDs for transparency\n- Keep explanation clear and business-focused\n\nGenerate the JSON response:"

/-- `SynthesisEngine._build_prompt`: render every evidence block, join them
with blank lines, and interpolate question and evidence into the fixed
template. -/
def _build_prompt (question : String) (evidence : List Evidence) : String :=
  let evidence_text := evidence.map evidenceBlock
  let all_evidence := String.intercalate "\n\n" evidence_text
  promptPrefix ++ question ++ promptMid ++ all_evidence ++ promptSuffix

/-! ## Basic lemmas about the embedded operations -/

/-- Inversion of a successful `Except` bind. -/
theorem exceptBind_ok {ε α β : Type} {x : Except ε α} {f : α → Except ε β} {b : β}
    (h : x >>= f = Except.ok b) : ∃ a, x = Except.ok a ∧ f a = Except.ok b := by
  cases x with
  | error e => simp [Bind.bind, Except.bind] at h
  | ok a => exact ⟨a, rfl, by simpa [Bind.bind, Except.bind] using h⟩

/-- The coerced confidence is always one of the three labels. -/
theorem coerceConfidence_mem (j : Json) : coerceConfidence j ∈ ["High", "Medium", "Low"] := by
  unfold coerceConfidence
  cases j <;> simp
  case str s => split <;> simp_all

/-- Full inversion of a successful run of the `try` body: every processing
step succeeded and the output is assembled from their results. -/
theorem validateCore_ok_inv {parsed : Json} {ids : List String} {out : SynthesisOut}
    (h : validateCore parsed ids = .ok out) :
    ∃ driversJ driverItems drivers confidenceJ answerJ answer limitationsJ limitations
      nextStepsJ next_steps,
      pyGet parsed "drivers" (Json.arr []) = .ok driversJ ∧
      pyIter driversJ = .ok driverItems ∧
      processDrivers ids driverItems = .ok drivers ∧
      pyGet parsed "confidence" (Json.str "Medium") = .ok confidenceJ ∧
      pyGet parsed "answer" (Json.str "Unable to generate answer from available evidence.") =
        .ok answerJ ∧
      asStr answerJ = .ok answer ∧
      pyGet parsed "limitations" (Json.arr [Json.str "Limited evidence available"]) =
        .ok limitationsJ ∧
      asStrList limitationsJ = .ok limitations ∧
      pyGet parsed "next_steps" (Json.arr [Json.str "Collect more detailed data"]) =
        .ok nextStepsJ ∧
      asStrList nextStepsJ = .ok next_steps ∧
      out = { answer := answer, drivers := drivers,
              confidence := coerceConfidence confidenceJ,
              limitations := limitations, next_steps := next_steps } := by
  unfold validateCore at h
  obtain ⟨driversJ, h1, h⟩ := exceptBind_ok h
  obtain ⟨driverItems, h2, h⟩ := exceptBind_ok h
  obtain ⟨drivers, h3, h⟩ := exceptBind_ok h
  obtain ⟨confidenceJ, h4, h⟩ := exceptBind_ok h
  obtain ⟨answerJ, h5, h⟩ := exceptBind_ok h
  obtain ⟨answer, h6, h⟩ := exceptBind_ok h
  obtain ⟨limitationsJ, h7, h⟩ := exceptBind_ok h
  obtain ⟨limitations, h8, h⟩ := exceptBind_ok h
  obtain ⟨nextStepsJ, h9, h⟩ := exceptBind_ok h
  obtain ⟨next_steps, h10, h⟩ := exceptBind_ok h
  refine ⟨driversJ, driverItems, drivers, confidenceJ, answerJ, answer, limitationsJ,
    limitations, nextStepsJ, next_steps, h1, h2, h3, h4, h5, h6, h7, h8, h9, h10, ?_⟩
  simpa [Pure.pure, Except.pure] using h.symm

/-- A non-object top-level value makes the first `parsed.get` raise
AttributeError, so the whole body fails with that exception. -/
theorem validateCore_non_obj {parsed : Json} (ids : List String)
    (h : parsed.isObj = false) :
    validateCore parsed ids =
      .error (.attributeError (parsed.typeName ++ " object has no attribute get")) := by
  unfold validateCore pyGet
  cases parsed <;> simp_all [Json.isObj, Bind.bind, Except.bind]

/-! ## Claim theorems -/

/-- Claim C2: `_validate_and_repair` is total — for every parse outcome
(including parse failure of malformed text) and every evidence list it
returns a well-formed `SynthesisOut`, with no exception escaping. -/
theorem claim2_validate_total_wellformed (llm_output : Except String Json)
    (evidence : List Evidence) :
    (_validate_and_repair llm_output evidence).wellFormed := by
  cases llm_output with
  | error e => simp [_validate_and_repair, SynthesisOut.wellFormed]
  | ok parsed =>
    cases hv : validateCore parsed (evidence.map Evidence.id) with
    | error e => simp [_validate_and_repair, hv, SynthesisOut.wellFormed]
    | ok out =>
      obtain ⟨_, _, _, confidenceJ, _, _, _, _, _, _, _, _, _, _, _, _, _, _, _, _, hout⟩ :=
        validateCore_ok_inv hv
      subst hout
      simpa [_validate_and_repair, hv, SynthesisOut.wellFormed] using
        coerceConfidence_mem confidenceJ

/-- Claim C3: every parse failure yields the fixed degraded output — the
unable-to-parse answer, no drivers, Low confidence, a limitations entry
describing the JSON parse error, and the retry next step. -/
theorem claim3_parse_failure_output (e : String) (evidence : List Evidence) :
    _validate_and_repair (.error e) evidence =
      { answer := "Error: Unable to parse LLM response."
        drivers := []
        confidence := "Low"
        limitations := ["JSON parsing error: " ++ e]
        next_steps := ["Retry the query"] } := rfl

/-- Claim C9: a successfully parsed top-level value that is not a JSON
object is routed to the validation-error degraded output (from the
AttributeError raised by `.get`), not to the parse-failure output. -/
theorem claim9_toplevel_non_object (parsed : Json) (evidence : List Evidence)
    (h : parsed.isObj = false) :
    _validate_and_repair (.ok parsed) evidence =
      { answer := "Error: Unable to generate synthesis."
        drivers := []
        confidence := "Low"
        limitations := ["Validation error: " ++ (parsed.typeName ++ " object has no attribute get")]
        next_steps := ["Check evidence format and retry"] } := by
  simp [_validate_and_repair, validateCore_non_obj (evidence.map Evidence.id) h, PyErr.msg]

/-- Witness for C9 at the concrete non-object top-level value `5`. -/
theorem claim9_witness :
    (Json.num 5).isObj = false ∧
    _validate_and_repair (.ok (Json.num 5)) [] =
      { answer := "Error: Unable to generate synthesis."
        drivers := []
        confidence := "Low"
        limitations :=
          ["Validation error: " ++ ((Json.num 5).typeName ++ " object has no attribute get")]
        next_steps := ["Check evidence format and retry"] } :=
  ⟨rfl, claim9_toplevel_non_object (Json.num 5) [] rfl⟩

/-- Claim C7: constructing the engine with no key in the argument and no
key in the environment raises ValueError, and a non-empty key always
yields a constructed engine with the fixed configuration. -/
theorem claim7_api_key_required :
    (SynthesisEngine.initEngine none none =
      .error "GROQ_API_KEY not found in environment") ∧
    ∀ key env, key ≠ "" →
      SynthesisEngine.initEngine (some key) env =
        .ok { api_key := key, model := "llama-3.3-70b-versatile", max_tokens := 1024,
              temperature := (3 : Rat) / 10 } := by
  refine ⟨rfl, ?_⟩
  intro key env hk
  unfold SynthesisEngine.initEngine pyOr pyTruthy
  simp [hk]

/-- Witness for C7: no credential at all is refused; the concrete key
string is accepted. -/
theorem claim7_witness :
    (SynthesisEngine.initEngine none none =
      .error "GROQ_API_KEY not found in environment") ∧
    SynthesisEngine.initEngine (some "gsk-test-key") none =
      .ok { api_key := "gsk-test-key", model := "llama-3.3-70b-versatile",
            max_tokens := 1024, temperature := (3 : Rat) / 10 } :=
  ⟨claim7_api_key_required.1, claim7_api_key_required.2 "gsk-test-key" none (by decide)⟩

set_option maxRecDepth 4096 in
/-- Claim C8: `_build_prompt` is a pure total function — identical
arguments give byte-identical prompt text, and the result is a non-empty
string even for an empty evidence list. -/
theorem claim8_build_prompt_pure :
    (∀ question e₁ e₂, e₁ = e₂ → _build_prompt question e₁ = _build_prompt question e₂) ∧
    ∀ question evidence, 0 < (_build_prompt question evidence).length := by
  refine ⟨fun question e₁ e₂ h => by rw [h], ?_⟩
  intro question evidence
  unfold _build_prompt
  have hp : 0 < promptPrefix.length := by decide
  simp only [String.length_append]
  omega

/-- Witness for C8 at a concrete question and the empty evidence list. -/
theorem claim8_witness :
    _build_prompt "Why did revenue drop in Q3?" [] =
      _build_prompt "Why did revenue drop in Q3?" [] ∧
    0 < (_build_prompt "Why did revenue drop in Q3?" []).length :=
  ⟨claim8_build_prompt_pure.1 "Why did revenue drop in Q3?" [] [] rfl,
   claim8_build_prompt_pure.2 "Why did revenue drop in Q3?" []⟩

/-- A kept id passed the membership test against the valid-id set. -/
theorem checkIdKeep_ok_some {ids : List String} {eid : Json} {s : String}
    (h : checkIdKeep ids eid = .ok (some s)) : s ∈ ids := by
  unfold checkIdKeep at h
  cases eid <;> simp_all
  case str t =>
    rcases h with ⟨hmem, rfl⟩
    exact hmem

/-- Every id surviving the comprehension is a valid id. -/
theorem filterEvidenceIds_subset {ids : List String} {items : List Json} {l : List String}
    (h : filterEvidenceIds ids items = .ok l) : ∀ s ∈ l, s ∈ ids := by
  induction items generalizing l with
  | nil =>
    simp only [filterEvidenceIds] at h
    cases h
    simp
  | cons eid rest ih =>
    unfold filterEvidenceIds at h
    obtain ⟨kept, h1, h⟩ := exceptBind_ok h
    obtain ⟨tail, h2, h⟩ := exceptBind_ok h
    have htail := ih h2
    simp only [Pure.pure, Except.pure, Except.ok.injEq] at h
    cases kept with
    | none => subst h; exact htail
    | some s =>
      subst h
      intro x hx
      rcases List.mem_cons.mp hx with rfl | hx
      · exact checkIdKeep_ok_some h1
      · exact htail x hx

/-- Every evidence id of a repaired driver is a valid id. -/
theorem processDriver_subset {ids : List String} {d : Json} {drv : Driver}
    (h : processDriver ids d = .ok drv) : ∀ s ∈ drv.evidence_ids, s ∈ ids := by
  unfold processDriver at h
  obtain ⟨rawIds, h1, h⟩ := exceptBind_ok h
  obtain ⟨idItems, h2, h⟩ := exceptBind_ok h
  obtain ⟨veids, h3, h⟩ := exceptBind_ok h
  obtain ⟨factorJ, h4, h⟩ := exceptBind_ok h
  obtain ⟨factor, h5, h⟩ := exceptBind_ok h
  simp only [Pure.pure, Except.pure, Except.ok.injEq] at h
  subst h
  simpa using filterEvidenceIds_subset h3

/-- Every evidence id cited by any repaired driver is a valid id. -/
theorem processDrivers_subset {ids : List String} {items : List Json} {drvs : List Driver}
    (h : processDrivers ids items = .ok drvs) :
    ∀ drv ∈ drvs, ∀ s ∈ drv.evidence_ids, s ∈ ids := by
  induction items generalizing drvs with
  | nil =>
    simp only [processDrivers] at h
    cases h
    simp
  | cons d rest ih =>
    unfold processDrivers at h
    obtain ⟨drv, h1, h⟩ := exceptBind_ok h
    obtain ⟨tail, h2, h⟩ := exceptBind_ok h
    simp only [Pure.pure, Except.pure, Except.ok.injEq] at h
    subst h
    intro x hx
    rcases List.mem_cons.mp hx with rfl | hx
    · exact processDriver_subset h1
    · exact ih h2 x hx

/-- Claim C1: no hallucinated citations — every identifier appearing in
any driver of the returned output is the id of some input evidence item. -/
theorem claim1_no_hallucinated_ids (llm_output : Except String Json)
    (evidence : List Evidence) (d : Driver) (s : String)
    (hd : d ∈ (_validate_and_repair llm_output evidence).drivers)
    (hs : s ∈ d.evidence_ids) : s ∈ evidence.map Evidence.id := by
  cases llm_output with
  | error e => simp [_validate_and_repair] at hd
  | ok parsed =>
    cases hv : validateCore parsed (evidence.map Evidence.id) with
    | error e => simp [_validate_and_repair, hv] at hd
    | ok out =>
      simp only [_validate_and_repair, hv] at hd
      obtain ⟨_, _, drivers, _, _, _, _, _, _, _, _, _, h3, _, _, _, _, _, _, _, hout⟩ :=
        validateCore_ok_inv hv
      subst hout
      exact processDrivers_subset h3 d hd s hs

/-- Witness for C1: the model cites e1 and the hallucinated e9; the
surviving citation e1 is an input evidence id. -/
theorem claim1_witness :
    (⟨"seasonal dip", ["e1"]⟩ : Driver) ∈
      (_validate_and_repair
        (.ok (Json.obj [("answer", Json.str "X"),
          ("drivers", Json.arr [Json.obj [("factor", Json.str "seasonal dip"),
            ("evidence_ids", Json.arr [Json.str "e1", Json.str "e9"])]]),
          ("confidence", Json.str "High")]))
        [{ id := "e1", dimension := "time" }]).drivers ∧
    "e1" ∈ (⟨"seasonal dip", ["e1"]⟩ : Driver).evidence_ids ∧
    "e1" ∈ [({ id := "e1", dimension := "time" } : Evidence)].map Evidence.id := by
  refine ⟨?_, ?_, ?_⟩
  · decide
  · decide
  · exact claim1_no_hallucinated_ids
      (.ok (Json.obj [("answer", Json.str "X"),
        ("drivers", Json.arr [Json.obj [("factor", Json.str "seasonal dip"),
          ("evidence_ids", Json.arr [Json.str "e1", Json.str "e9"])]]),
        ("confidence", Json.str "High")]))
      [{ id := "e1", dimension := "time" }]
      ⟨"seasonal dip", ["e1"]⟩ "e1" (by decide) (by decide)

/-- The membership test result is unchanged between valid-id lists with
the same membership function. -/
theorem checkIdKeep_congr {ids₁ ids₂ : List String}
    (h : ∀ s, ids₁.contains s = ids₂.contains s) (eid : Json) :
    checkIdKeep ids₁ eid = checkIdKeep ids₂ eid := by
  unfold checkIdKeep
  cases eid <;> simp only []
  case str t => rw [h t]

/-- The comprehension is unchanged between valid-id lists with the same
membership function. -/
theorem filterEvidenceIds_congr {ids₁ ids₂ : List String}
    (h : ∀ s, ids₁.contains s = ids₂.contains s) (items : List Json) :
    filterEvidenceIds ids₁ items = filterEvidenceIds ids₂ items := by
  induction items with
  | nil => rfl
  | cons eid rest ih =>
    unfold filterEvidenceIds
    rw [checkIdKeep_congr h, ih]

/-- Driver repair is unchanged between valid-id lists with the same
membership function. -/
theorem processDriver_congr {ids₁ ids₂ : List String}
    (h : ∀ s, ids₁.contains s = ids₂.contains s) (d : Json) :
    processDriver ids₁ d = processDriver ids₂ d := by
  unfold processDriver
  simp only [filterEvidenceIds_congr h]

/-- The drivers loop is unchanged between valid-id lists with the same
membership function. -/
theorem processDrivers_congr {ids₁ ids₂ : List String}
    (h : ∀ s, ids₁.contains s = ids₂.contains s) (items : List Json) :
    processDrivers ids₁ items = processDrivers ids₂ items := by
  induction items with
  | nil => rfl
  | cons d rest ih =>
    unfold processDrivers
    rw [processDriver_congr h, ih]

/-- The whole `try` body is unchanged between valid-id lists with the same
membership function. -/
theorem validateCore_congr {ids₁ ids₂ : List String}
    (h : ∀ s, ids₁.contains s = ids₂.contains s) (parsed : Json) :
    validateCore parsed ids₁ = validateCore parsed ids₂ := by
  unfold validateCore
  simp only [processDrivers_congr h]

/-- Claim C10: the result of `_validate_and_repair` depends on the
evidence argument only through its set of ids — two evidence lists with
equal id sets give identical outputs for every raw text. -/
theorem claim10_depends_only_on_id_set (llm_output : Except String Json)
    (ev₁ ev₂ : List Evidence)
    (h : ∀ s, s ∈ ev₁.map Evidence.id ↔ s ∈ ev₂.map Evidence.id) :
    _validate_and_repair llm_output ev₁ = _validate_and_repair llm_output ev₂ := by
  cases llm_output with
  | error e => rfl
  | ok parsed =>
    have hc : ∀ s, (ev₁.map Evidence.id).contains s = (ev₂.map Evidence.id).contains s := by
      intro s
      rw [Bool.eq_iff_iff]
      simpa [List.elem_iff] using h s
    simp [_validate_and_repair, validateCore_congr hc parsed]

/-- Witness for C10: a duplicated, reordered, differently annotated
evidence list with the same id set gives the same output. -/
theorem claim10_witness :
    (∀ s, s ∈ [({ id := "e1", dimension := "time" } : Evidence),
               { id := "e2", dimension := "region" },
               { id := "e1", dimension := "orders", period := some "Q3" }].map Evidence.id ↔
          s ∈ [({ id := "e2", dimension := "product", highlights := ["x"] } : Evidence),
               { id := "e1", dimension := "time" }].map Evidence.id) ∧
    _validate_and_repair
      (.ok (Json.obj [("drivers", Json.arr [Json.obj [("evidence_ids",
        Json.arr [Json.str "e1", Json.str "e3"])]])]))
      [({ id := "e1", dimension := "time" } : Evidence),
       { id := "e2", dimension := "region" },
       { id := "e1", dimension := "orders", period := some "Q3" }] =
    _validate_and_repair
      (.ok (Json.obj [("drivers", Json.arr [Json.obj [("evidence_ids",
        Json.arr [Json.str "e1", Json.str "e3"])]])]))
      [({ id := "e2", dimension := "product", highlights := ["x"] } : Evidence),
       { id := "e1", dimension := "time" }] := by
  have h : ∀ s, s ∈ [({ id := "e1", dimension := "time" } : Evidence),
               { id := "e2", dimension := "region" },
               { id := "e1", dimension := "orders", period := some "Q3" }].map Evidence.id ↔
          s ∈ [({ id := "e2", dimension := "product", highlights := ["x"] } : Evidence),
               { id := "e1", dimension := "time" }].map Evidence.id := by
    intro s
    simp only [List.map, List.mem_cons, List.not_mem_nil, or_false]
    tauto
  exact ⟨h, claim10_depends_only_on_id_set _ _ _ h⟩

/-- Validating the string items of a string array succeeds and returns
exactly those strings. -/
theorem allStrs_strs (xs : List String) : allStrs (xs.map Json.str) = .ok xs := by
  induction xs with
  | nil => rfl
  | cons x xs ih =>
    simp [allStrs, asStr, Bind.bind, Except.bind, ih, Pure.pure, Except.pure]

/-- The comprehension over an array of strings is a plain order-preserving
filter by validity. -/
theorem filterEvidenceIds_strs (ids : List String) (es : List String) :
    filterEvidenceIds ids (es.map Json.str) = .ok (es.filter fun s => ids.contains s) := by
  induction es with
  | nil => rfl
  | cons e es ih =>
    simp only [List.map_cons, filterEvidenceIds, checkIdKeep, Bind.bind, Except.bind, ih]
    by_cases he : e ∈ ids
    · simp [he, List.filter_cons, Pure.pure, Except.pure]
    · simp [he, List.filter_cons, Pure.pure, Except.pure]

/-- Counterexample to C4 as stated: for the successfully parsed object
with a null drivers field and no confidence field, the TypeError raised by
iterating None reaches the `except Exception` clause and the returned
confidence is Low, not the claimed Medium. -/
theorem claim4_counterexample :
    lookupField [("drivers", Json.null)] "confidence" = none ∧
    (_validate_and_repair (.ok (Json.obj [("drivers", Json.null)])) []).confidence ≠ "Medium" ∧
    (_validate_and_repair (.ok (Json.obj [("drivers", Json.null)])) []).confidence = "Low" := by
  refine ⟨rfl, ?_, ?_⟩
  · decide
  · decide

/-- Claim C4 (amended): for a successfully parsed JSON object whose field
processing completes without raising, the returned confidence is the
present value when it is one of the case-sensitive labels High, Medium,
Low, and Medium when the field is absent or holds any other value. -/
theorem claim4_confidence_coercion (fields : List (String × Json))
    (evidence : List Evidence) (out : SynthesisOut)
    (h : validateCore (Json.obj fields) (evidence.map Evidence.id) = .ok out) :
    (_validate_and_repair (.ok (Json.obj fields)) evidence).confidence =
      coerceConfidence ((lookupField fields "confidence").getD (Json.str "Medium")) := by
  have hout : _validate_and_repair (.ok (Json.obj fields)) evidence = out := by
    simp [_validate_and_repair, h]
  rw [hout]
  obtain ⟨_, _, _, confidenceJ, _, _, _, _, _, _, _, _, _, h4, _, _, _, _, _, _, heq⟩ :=
    validateCore_ok_inv h
  subst heq
  simp only [pyGet, Except.ok.injEq] at h4
  rw [← h4]

/-- Witness for C4 at the lowercase confidence value "high": the happy
path completes and the output confidence is the coerced Medium. -/
theorem claim4_witness :
    validateCore (Json.obj [("confidence", Json.str "high")]) (List.map Evidence.id []) =
      .ok { answer := "Unable to generate answer from available evidence.", drivers := [],
            confidence := "Medium", limitations := ["Limited evidence available"],
            next_steps := ["Collect more detailed data"] } ∧
    (_validate_and_repair (.ok (Json.obj [("confidence", Json.str "high")])) []).confidence =
      coerceConfidence
        ((lookupField [("confidence", Json.str "high")] "confidence").getD (Json.str "Medium")) := by
  have h : validateCore (Json.obj [("confidence", Json.str "high")]) (List.map Evidence.id []) =
      .ok { answer := "Unable to generate answer from available evidence.", drivers := [],
            confidence := "Medium", limitations := ["Limited evidence available"],
            next_steps := ["Collect more detailed data"] } := by rfl
  exact ⟨h, claim4_confidence_coercion [("confidence", Json.str "high")] [] _ h⟩

/-- Counterexample to C5 as stated: a present non-array drivers field
(null) is not treated as an empty drivers list with the remaining fields
processed normally — the present High confidence is lost and the
validation-error output (confidence Low) is returned instead. -/
theorem claim5_counterexample :
    (_validate_and_repair
      (.ok (Json.obj [("drivers", Json.null), ("confidence", Json.str "High")])) []).confidence
        = "Low" ∧
    (_validate_and_repair
      (.ok (Json.obj [("drivers", Json.null), ("confidence", Json.str "High")])) []).limitations
        = ["Validation error: NoneType object is not iterable"] := by
  refine ⟨?_, ?_⟩
  · decide
  · decide

/-- Prepending a field binds its own key. -/
theorem lookupField_cons_self (k : String) (v : Json) (fields : List (String × Json)) :
    lookupField ((k, v) :: fields) k = some v := by
  simp [lookupField]

/-- Prepending a field leaves every other key unchanged. -/
theorem lookupField_cons_ne (k : String) (v : Json) (fields : List (String × Json))
    (key : String) (h : ¬ k = key) :
    lookupField ((k, v) :: fields) key = lookupField fields key := by
  simp [lookupField, h]

/-- JSON values that Python can iterate: arrays, dicts, and strings.
Null, numbers and booleans raise TypeError when iterated. -/
def Json.isIterable : Json → Bool
  | .arr _ => true
  | .obj _ => true
  | .str _ => true
  | _ => false

/-- Claim C5 (amended): a missing drivers key is processed exactly like an
explicit empty drivers array (zero drivers, remaining fields processed
normally); a present drivers value is iterated with Python semantics
rather than checked for being an array — a non-iterable value (null, a
number, a boolean) raises TypeError and yields the validation-error
degraded output, while a present iterable whose iteration is empty (the
empty array, the empty string, the empty object) again gives zero drivers
with the remaining fields processed normally; and for an object element of
a present drivers array whose evidence_ids is an array of strings, the
driver is kept with the present string factor (or the default
"Unknown factor" when the key is absent) and with exactly the valid ids,
in their original relative order. -/
theorem claim5_drivers_handling :
    (∀ (fields : List (String × Json)) (ids : List String),
      lookupField fields "drivers" = none →
      validateCore (Json.obj fields) ids =
        validateCore (Json.obj (("drivers", Json.arr []) :: fields)) ids) ∧
    (∀ (fields : List (String × Json)) (evidence : List Evidence) (j : Json),
      lookupField fields "drivers" = some j →
      j.isIterable = false →
      _validate_and_repair (.ok (Json.obj fields)) evidence =
        { answer := "Error: Unable to generate synthesis."
          drivers := []
          confidence := "Low"
          limitations := ["Validation error: " ++ (j.typeName ++ " object is not iterable")]
          next_steps := ["Check evidence format and retry"] }) ∧
    (∀ (fields : List (String × Json)) (ids : List String) (j : Json),
      lookupField fields "drivers" = some j →
      pyIter j = .ok [] →
      validateCore (Json.obj fields) ids =
        validateCore (Json.obj (("drivers", Json.arr []) :: fields)) ids) ∧
    (∀ (ids : List String) (dfields : List (String × Json)) (es : List String) (f : String),
      lookupField dfields "evidence_ids" = some (Json.arr (es.map Json.str)) →
      lookupField dfields "factor" = some (Json.str f) →
      processDriver ids (Json.obj dfields) =
        .ok { factor := f, evidence_ids := es.filter fun s => ids.contains s }) ∧
    (∀ (ids : List String) (dfields : List (String × Json)) (es : List String),
      lookupField dfields "evidence_ids" = some (Json.arr (es.map Json.str)) →
      lookupField dfields "factor" = none →
      processDriver ids (Json.obj dfields) =
        .ok { factor := "Unknown factor", evidence_ids := es.filter fun s => ids.contains s }) := by
  refine ⟨?_, ?_, ?_, ?_, ?_⟩
  · intro fields ids hmiss
    unfold validateCore
    simp [pyGet, lookupField, hmiss]
  · intro fields evidence j hlook hnotit
    have hcore : validateCore (Json.obj fields) (evidence.map Evidence.id) =
        .error (.typeError (j.typeName ++ " object is not iterable")) := by
      unfold validateCore
      cases j <;>
        simp_all [Json.isIterable, pyGet, pyIter, Json.typeName, hlook, Bind.bind, Except.bind]
    simp [_validate_and_repair, hcore, PyErr.msg]
  · intro fields ids j hlook hiter
    unfold validateCore
    simp only [pyGet, hlook, Option.getD, Bind.bind, Except.bind, lookupField_cons_self,
      lookupField_cons_ne, ne_eq, String.reduceEq, not_false_eq_true]
    rw [hiter]
    simp [pyIter]
  · intro ids dfields es f hids hfac
    unfold processDriver
    simp [pyGet, hids, hfac, pyIter, Bind.bind, Except.bind, filterEvidenceIds_strs, asStr,
      Pure.pure, Except.pure]
  · intro ids dfields es hids hfac
    unfold processDriver
    simp [pyGet, hids, hfac, pyIter, Bind.bind, Except.bind, filterEvidenceIds_strs, asStr,
      Pure.pure, Except.pure]

/-- Witness for C5: a missing drivers key behaves like an explicit empty
array next to a present High confidence; a present null drivers value
yields the validation-error output; a present empty-string drivers value
behaves like an explicit empty array; a concrete driver element keeps e1,
drops the hallucinated e9, and a factorless element gets the default
factor. -/
theorem claim5_witness :
    validateCore (Json.obj [("confidence", Json.str "High")]) ["e1"] =
      validateCore (Json.obj [("drivers", Json.arr []), ("confidence", Json.str "High")]) ["e1"] ∧
    _validate_and_repair (.ok (Json.obj [("drivers", Json.null), ("confidence", Json.str "High")]))
        [] =
      { answer := "Error: Unable to generate synthesis."
        drivers := []
        confidence := "Low"
        limitations := ["Validation error: " ++ (Json.null.typeName ++ " object is not iterable")]
        next_steps := ["Check evidence format and retry"] } ∧
    validateCore (Json.obj [("drivers", Json.str ""), ("confidence", Json.str "High")]) [] =
      validateCore (Json.obj [("drivers", Json.arr []), ("drivers", Json.str ""),
        ("confidence", Json.str "High")]) [] ∧
    processDriver ["e1"] (Json.obj [("factor", Json.str "seasonal dip"),
        ("evidence_ids", Json.arr [Json.str "e1", Json.str "e9"])]) =
      .ok { factor := "seasonal dip",
            evidence_ids := ["e1", "e9"].filter fun s => ["e1"].contains s } ∧
    processDriver ["e1"] (Json.obj [("evidence_ids", Json.arr [Json.str "e2"])]) =
      .ok { factor := "Unknown factor",
            evidence_ids := ["e2"].filter fun s => ["e1"].contains s } := by
  refine ⟨claim5_drivers_handling.1 [("confidence", Json.str "High")] ["e1"] rfl, ?_, ?_, ?_, ?_⟩
  · exact claim5_drivers_handling.2.1
      [("drivers", Json.null), ("confidence", Json.str "High")] [] Json.null rfl rfl
  · exact claim5_drivers_handling.2.2.1
      [("drivers", Json.str ""), ("confidence", Json.str "High")] [] (Json.str "") rfl rfl
  · exact claim5_drivers_handling.2.2.2.1 ["e1"]
      [("factor", Json.str "seasonal dip"),
       ("evidence_ids", Json.arr [Json.str "e1", Json.str "e9"])]
      ["e1", "e9"] "seasonal dip" rfl rfl
  · exact claim5_drivers_handling.2.2.2.2 ["e1"]
      [("evidence_ids", Json.arr [Json.str "e2"])] ["e2"] rfl rfl

/-- Counterexample to C6 as stated: the limitations key is missing from
the parsed object, yet the fixed fallback is not substituted — the
TypeError from iterating the boolean drivers value routes the call to the
validation-error output instead. -/
theorem claim6_counterexample :
    lookupField [("drivers", Json.bool true)] "limitations" = none ∧
    (_validate_and_repair (.ok (Json.obj [("drivers", Json.bool true)])) []).limitations ≠
      ["Limited evidence available"] := by
  refine ⟨rfl, ?_⟩
  decide

/-- Claim C6 (amended): when the field processing completes without
raising, the fixed single-element fallback is substituted for limitations
and next_steps exactly when the respective key is missing, and a present
array of strings — the explicit empty array included — is passed through
unchanged. -/
theorem claim6_defaults_when_missing (fields : List (String × Json)) (ids : List String)
    (out : SynthesisOut) (h : validateCore (Json.obj fields) ids = .ok out) :
    (lookupField fields "limitations" = none →
      out.limitations = ["Limited evidence available"]) ∧
    (∀ xs : List String, lookupField fields "limitations" = some (Json.arr (xs.map Json.str)) →
      out.limitations = xs) ∧
    (lookupField fields "next_steps" = none →
      out.next_steps = ["Collect more detailed data"]) ∧
    (∀ xs : List String, lookupField fields "next_steps" = some (Json.arr (xs.map Json.str)) →
      out.next_steps = xs) := by
  obtain ⟨_, _, _, _, _, _, limitationsJ, limitations, nextStepsJ, next_steps, _, _, _, _, _, _,
    h7, h8, h9, h10, heq⟩ := validateCore_ok_inv h
  subst heq
  simp only [pyGet, Except.ok.injEq] at h7 h9
  refine ⟨?_, ?_, ?_, ?_⟩
  · intro hmiss
    rw [hmiss] at h7
    simp only [Option.getD] at h7
    rw [← h7] at h8
    have : asStrList (Json.arr [Json.str "Limited evidence available"]) =
        .ok ["Limited evidence available"] := by
      simpa using allStrs_strs ["Limited evidence available"]
    rw [this] at h8
    cases h8
    rfl
  · intro xs hpres
    rw [hpres] at h7
    simp only [Option.getD] at h7
    rw [← h7] at h8
    rw [show asStrList (Json.arr (xs.map Json.str)) = .ok xs from allStrs_strs xs] at h8
    cases h8
    rfl
  · intro hmiss
    rw [hmiss] at h9
    simp only [Option.getD] at h9
    rw [← h9] at h10
    have : asStrList (Json.arr [Json.str "Collect more detailed data"]) =
        .ok ["Collect more detailed data"] := by
      simpa using allStrs_strs ["Collect more detailed data"]
    rw [this] at h10
    cases h10
    rfl
  · intro xs hpres
    rw [hpres] at h9
    simp only [Option.getD] at h9
    rw [← h9] at h10
    rw [show asStrList (Json.arr (xs.map Json.str)) = .ok xs from allStrs_strs xs] at h10
    cases h10
    rfl

/-- Witness for C6: limitations present as an explicit empty array passes
through as empty, while the missing next_steps key receives the fallback. -/
theorem claim6_witness :
    validateCore (Json.obj [("limitations", Json.arr [])]) [] =
      .ok { answer := "Unable to generate answer from available evidence.", drivers := [],
            confidence := "Medium", limitations := [],
            next_steps := ["Collect more detailed data"] } ∧
    ({ answer := "Unable to generate answer from available evidence.", drivers := [],
       confidence := "Medium", limitations := [],
       next_steps := ["Collect more detailed data"] } : SynthesisOut).limitations = [] ∧
    ({ answer := "Unable to generate answer from available evidence.", drivers := [],
       confidence := "Medium", limitations := [],
       next_steps := ["Collect more detailed data"] } : SynthesisOut).next_steps =
      ["Collect more detailed data"] := by
  have h : validateCore (Json.obj [("limitations", Json.arr [])]) [] =
      .ok { answer := "Unable to generate answer from available evidence.", drivers := [],
            confidence := "Medium", limitations := [],
            next_steps := ["Collect more detailed data"] } := by rfl
  exact ⟨h, (claim6_defaults_when_missing _ _ _ h).2.1 [] rfl,
    (claim6_defaults_when_missing _ _ _ h).2.2.1 rfl⟩

end EDW
